import Mathlib

/-!
Shallow embedding of the MMPSU v2 UART protocol layer
(`src/mmpsu_v2/mmpsu_base.py` and `src/mmpsu_v2/mmpsu_v2/mmpsu_v2_uart.py`).

Modelling conventions:
* A Python `bytearray`/`bytes` is a `List Nat` (each element a byte value).
* A raised, uncaught Python exception (`struct.error`, `KeyError`,
  `IndexError`) is modelled by `Option.none` of the function's result type.
* Python `float` values are represented by their IEEE-754 single-precision
  wire bytes where they occur on the wire; the field catalog stores the
  literal Python default values (which for the float-typed fields are the
  Python `int` 0, exactly as in the source).
* The engine state we track is the pair of CRC error counters
  (`_rx_crc_err_count`, `_mmpsu_crc_err_count`); the serial handle, logger
  and lock are I/O objects outside the shallow embedding, so the reply
  bytes produced by `_read_packet` are passed to each operation as an input
  (an empty list models the timeout path, in which `_read_packet` returns
  an empty bytearray).
-/

namespace Mmpsu

/-- Constants from mmpsu_base.py. -/
def START_BYTE : Nat := 0xA5

def HDDR_SIZE : Nat := 4

def CMD_IND : Nat := 1

def PAYLOAD_LEN_L_IND : Nat := 2

def PAYLOAD_LEN_H_IND : Nat := 3

def CRC_SIZE : Nat := 2

/-- MmpsuV2Commands (IntEnum). -/
def CMD_NONE : Nat := 0

def CMD_READ : Nat := 1

def CMD_WRITE : Nat := 2

def CMD_READ_ALL : Nat := 3

def CMD_TEST_COMMS : Nat := 4

def CMD_ERROR : Nat := 5

/-- MmpsuV2ErrorCodes (IntEnum). -/
def ERR_NONE : Nat := 0

def ERR_CRC : Nat := 1

def ERR_UNKNOWN_CMD : Nat := 2

/-- `MMPSU_ERR_CODES` dict from mmpsu_base.py; `none` models a `KeyError`
on lookup of an unknown error code. -/
def MMPSU_ERR_CODES (code : Nat) : Option String :=
  if code = ERR_NONE then some "ERR_NONE"
  else if code = ERR_CRC then some "ERR_CRC"
  else if code = ERR_UNKNOWN_CMD then some "ERR_UNKNOWN_CMD"
  else none

/-- The runtime type tag carried by `FieldData.field_type` in the source
(`int`, `float`, `bool`, `bytes`/`bytearray`).  The catalog uses exactly
these tags, so we use a closed type; the source's "unrecognized type"
branches are unreachable for catalog descriptors. -/
inductive PyType where
  | tInt
  | tFloat
  | tBool
  | tBytes
  deriving DecidableEq, Repr

/-- A Python value as it occurs in this protocol layer.  Floats are carried
by their 4 IEEE-754 single-precision bytes (the only representation the
wire code ever inspects). -/
inductive Value where
  | vInt : Int → Value
  | vFloat : Nat → Nat → Nat → Nat → Value
  | vBool : Bool → Value
  | vBytes : List Nat → Value
  deriving DecidableEq, Repr

/-- `FieldData` dataclass from mmpsu_base.py. -/
structure FieldData where
  name : String
  reg : Nat
  field_type : PyType
  value : Value
  description : String
  unit : String
  writable : Bool
  deriving DecidableEq, Repr

/-- Little-endian 4-byte encoding of a 32-bit signed integer
(struct format `<i`, value taken modulo 2^32). -/
def int32ToLeBytes (i : Int) : List Nat :=
  let n := (i % (4294967296 : Int)).toNat
  [n % 256, n / 256 % 256, n / 65536 % 256, n / 16777216 % 256]

/-- Decode 4 little-endian bytes as a 32-bit signed integer
(struct format `<i`). -/
def leBytesToInt32 (b0 b1 b2 b3 : Nat) : Int :=
  let n := b0 + 256 * b1 + 65536 * b2 + 16777216 * b3
  if n < 2147483648 then (n : Int) else (n : Int) - 4294967296

/-- `FieldData.pack_into` from mmpsu_base.py.  Every recognized branch ends
in `struct.pack_into(fmt_str, dst, offset, self.reg, value)` where
`fmt_str` begins with the conversion `c` (int → `<ci`, float → `cf`,
bool → `c?xxx`, bytes/bytearray → `c{len(value)}s`).  CPython's `c`
conversion accepts only a `bytes` object of length 1 and raises
`struct.error` ("char format requires a bytes object of length 1") when
given an `int`; `self.reg` is an `IntEnum` member, i.e. an `int`, so the
call raises for every recognized field type and the uncaught exception is
modelled as `none`.  (A second latent slip: `cf` uses native alignment, so
even with the register fixed it would occupy 8 bytes, not 5.) -/
def FieldData.pack_into (fd : FieldData) (_dst : List Nat) (_value : Value)
    (_offset : Nat) : Option (List Nat × Nat) :=
  match fd.field_type with
  | PyType.tInt => none
  | PyType.tFloat => none
  | PyType.tBool => none
  | PyType.tBytes => none

/-- `FieldData.unpack_from` from mmpsu_base.py.  The four struct formats
(`<i`, `f`, `?xxx`, `4s`) each require 4 bytes at `offset`;
`struct.unpack_from` raises `struct.error` (modelled `none`) when the
buffer past `offset` is shorter than that. -/
def FieldData.unpack_from (fd : FieldData) (src : List Nat) (offset : Nat) :
    Option Value :=
  if offset + 4 ≤ src.length then
    match fd.field_type with
    | PyType.tInt => some (Value.vInt (leBytesToInt32 (src.getD offset 0)
        (src.getD (offset + 1) 0) (src.getD (offset + 2) 0)
        (src.getD (offset + 3) 0)))
    | PyType.tFloat => some (Value.vFloat (src.getD offset 0)
        (src.getD (offset + 1) 0) (src.getD (offset + 2) 0)
        (src.getD (offset + 3) 0))
    | PyType.tBool => some (Value.vBool (src.getD offset 0 != 0))
    | PyType.tBytes => some (Value.vBytes ((src.drop offset).take 4))
  else none

/-- The static catalog `MMPSU_V2_REGS` from mmpsu_base.py, in source order.
Fields: name, reg, field_type, value, description, unit, writable.  The
float-typed descriptors carry the literal Python default `0` (an `int`),
exactly as written in the source. -/
def MMPSU_V2_REGS : List FieldData := [
  ⟨"OUTPUT_ENABLED", 0, PyType.tBool, Value.vBool true, "Enable or disable the output.", "", true⟩,
  ⟨"VOUT_MEASURED", 1, PyType.tInt, Value.vInt 0, "Measured output voltage in millivolts.", "mV", false⟩,
  ⟨"VOUT_SETPOINT", 2, PyType.tInt, Value.vInt 12000, "Output voltage setpoint in millivolts.", "mV", true⟩,
  ⟨"PHASES_PRESENT", 3, PyType.tInt, Value.vInt 0, "Number of phases inserted on power up.", "", false⟩,
  ⟨"PHASES_ENABLED", 4, PyType.tInt, Value.vInt 0, "Number of phases currently enabled.", "", false⟩,
  ⟨"PHASE_A_DUTY_CYCLE", 5, PyType.tInt, Value.vInt 0, "Phase A duty cycle in counts.", "", false⟩,
  ⟨"PHASE_A_CURRENT", 6, PyType.tInt, Value.vInt 0, "Phase A current in milliamps.", "mA", false⟩,
  ⟨"PHASE_A_CURRENT_LIMIT", 7, PyType.tInt, Value.vInt 30, "Phase A DC current limit in milliamps.", "mA", true⟩,
  ⟨"PHASE_B_DUTY_CYCLE", 9, PyType.tInt, Value.vInt 0, "Phase B duty cycle in counts.", "", false⟩,
  ⟨"PHASE_A_TEMP", 8, PyType.tFloat, Value.vInt 0, "Phase A approximate temperature in degrees C", "°C", false⟩,
  ⟨"PHASE_B_CURRENT", 10, PyType.tInt, Value.vInt 0, "Phase B current in milliamps.", "mA", false⟩,
  ⟨"PHASE_B_CURRENT_LIMIT", 11, PyType.tInt, Value.vInt 30, "Phase B DC current limit in milliamps.", "mA", true⟩,
  ⟨"PHASE_B_TEMP", 12, PyType.tFloat, Value.vInt 0, "Phase B approximate temperature in degrees C", "°C", false⟩,
  ⟨"PHASE_C_DUTY_CYCLE", 13, PyType.tInt, Value.vInt 0, "Phase C duty cycle in counts.", "", false⟩,
  ⟨"PHASE_C_CURRENT", 14, PyType.tInt, Value.vInt 0, "Phase C current in milliamps.", "mA", false⟩,
  ⟨"PHASE_C_CURRENT_LIMIT", 15, PyType.tInt, Value.vInt 30, "Phase C DC current limit in milliamps.", "mA", true⟩,
  ⟨"PHASE_C_TEMP", 16, PyType.tFloat, Value.vInt 0, "Phase C approximate temperature in degrees C", "°C", false⟩,
  ⟨"PHASE_D_DUTY_CYCLE", 17, PyType.tInt, Value.vInt 0, "Phase D duty cycle in counts.", "", false⟩,
  ⟨"PHASE_D_CURRENT", 18, PyType.tInt, Value.vInt 0, "Phase D current in milliamps.", "mA", false⟩,
  ⟨"PHASE_D_CURRENT_LIMIT", 19, PyType.tInt, Value.vInt 30, "Phase D DC current limit in milliamps.", "mA", true⟩,
  ⟨"PHASE_D_TEMP", 20, PyType.tFloat, Value.vInt 0, "Phase D approximate temperature in degrees C", "°C", false⟩,
  ⟨"PHASE_E_DUTY_CYCLE", 21, PyType.tInt, Value.vInt 0, "Phase E duty cycle in counts.", "", false⟩,
  ⟨"PHASE_E_CURRENT", 22, PyType.tInt, Value.vInt 0, "Phase E current in milliamps.", "mA", false⟩,
  ⟨"PHASE_E_CURRENT_LIMIT", 23, PyType.tInt, Value.vInt 30, "Phase E DC current limit in milliamps.", "mA", true⟩,
  ⟨"PHASE_E_TEMP", 24, PyType.tFloat, Value.vInt 0, "Phase E approximate temperature in degrees C", "°C", false⟩,
  ⟨"PHASE_F_DUTY_CYCLE", 25, PyType.tInt, Value.vInt 0, "Phase F duty cycle in counts.", "", false⟩,
  ⟨"PHASE_F_CURRENT", 26, PyType.tInt, Value.vInt 0, "Phase F current in milliamps.", "mA", false⟩,
  ⟨"PHASE_F_CURRENT_LIMIT", 27, PyType.tInt, Value.vInt 30, "Phase F DC current limit in milliamps.", "mA", true⟩,
  ⟨"PHASE_F_TEMP", 28, PyType.tFloat, Value.vInt 0, "Phase F approximate temperature in degrees C", "°C", false⟩,
  ⟨"PHASES_IN_OVERTEMP", 29, PyType.tInt, Value.vInt 0, "Bit-field indicating which fields are in overtemp", "", false⟩,
  ⟨"DEBUG_MODE", 30, PyType.tInt, Value.vInt 0, "Put the MMPSU into debug mode.", "", true⟩,
  ⟨"DEVELOPER_MODE", 31, PyType.tBool, Value.vBool false, "Put the MMPSU into developer mode.", "", true⟩,
  ⟨"SYSTEM_STATE", 32, PyType.tInt, Value.vInt 0, "Power system FSM state.", "", false⟩,
  ⟨"VOLTAGE_KP", 33, PyType.tInt, Value.vInt 0, "Proportional control coefficient for voltage control.", "", false⟩,
  ⟨"VOLTAGE_KI", 34, PyType.tInt, Value.vInt 0, "Integral control coefficient for voltage control.", "", false⟩,
  ⟨"CURRENT_KP", 35, PyType.tInt, Value.vInt 0, "Proportional control coefficient for current balancing.", "", false⟩,
  ⟨"CURRENT_KI", 36, PyType.tInt, Value.vInt 0, "Integral control coefficient for current balancing.", "", false⟩,
  ⟨"COMMS_ERROR_COUNT", 37, PyType.tInt, Value.vInt 0, "Count of communication link errors, user resettable.", "", true⟩,
  ⟨"MANUAL_MODE", 38, PyType.tBool, Value.vBool false, "Put the MMPSU into manual control mode.", "", true⟩,
  ⟨"PHASE_COUNT_REQUESTED", 39, PyType.tInt, Value.vInt 0, "Requested number of phases to be operating (manual mode).", "", true⟩]

/-- `self._regmap` built in `MmpsuV2Base.__init__` by the dict comprehension
over the catalog (later entries with an equal key would overwrite earlier
ones, which the `foldl` mirrors); `none` models a `KeyError`. -/
def regmap (name : String) : Option FieldData :=
  MMPSU_V2_REGS.foldl (fun acc fd => if fd.name = name then some fd else acc) none

/-- `self._regmap_by_num` built in `MmpsuV2Base.__init__`; `none` models a
`KeyError`. -/
def regmap_by_num (n : Nat) : Option FieldData :=
  MMPSU_V2_REGS.foldl (fun acc fd => if fd.reg = n then some fd else acc) none

/-- `get_payload_size` helper from mmpsu_base.py:
`packet[2] | (packet[3] << 8)`.  All call sites modelled here index a
packet of length ≥ 4 (the one short-buffer call, inside `_read_packet`, is
wrapped in try/except and is part of the unmodelled transport layer), so a
total `getD` reading is faithful. -/
def get_payload_size (packet : List Nat) : Nat :=
  packet.getD PAYLOAD_LEN_L_IND 0 ||| (packet.getD PAYLOAD_LEN_H_IND 0 <<< 8)

/-- `get_packet_size` helper from mmpsu_base.py. -/
def get_packet_size (packet : List Nat) : Nat :=
  get_payload_size packet + HDDR_SIZE + CRC_SIZE

/-- `set_packet_size` helper from mmpsu_base.py; `List.set` is faithful at
the in-range indices used by every (packet-building) call site. -/
def set_packet_size (packet : List Nat) (len : Nat) : List Nat :=
  (packet.set PAYLOAD_LEN_L_IND (len &&& 0xFF)).set PAYLOAD_LEN_H_IND
    ((len >>> 8) &&& 0xFF)

/-- `get_checksum` helper from mmpsu_base.py:
`(packet[ind] << 8) | packet[ind + 1]` at `ind = HDDR_SIZE + payload_size`;
`none` models the `IndexError` raised when those bytes are absent. -/
def get_checksum (packet : List Nat) : Option Nat :=
  let ind := HDDR_SIZE + get_payload_size packet
  match packet.get? ind, packet.get? (ind + 1) with
  | some hi, some lo => some ((hi <<< 8) ||| lo)
  | _, _ => none

/-- The mutable engine state of `MmpsuV2Uart` tracked by the embedding:
the two CRC error counters (`self._rx_crc_err_count` and
`self._mmpsu_crc_err_count`, both initialized to 0 in `__init__`). -/
structure EngineState where
  rx_crc_err_count : Nat
  mmpsu_crc_err_count : Nat
  deriving DecidableEq, Repr

/-- `MmpsuV2Uart._compute_crc`: a placeholder that returns 0 for every
payload. -/
def compute_crc (_payload : List Nat) : Nat := 0

/-- `MmpsuV2Uart._add_crc`: stuff the two checksum bytes (big-endian) at
the end of the payload. -/
def add_crc (packet : List Nat) : List Nat :=
  let chksum_ind := HDDR_SIZE + get_payload_size packet
  let chksum := compute_crc ((packet.drop HDDR_SIZE).take (get_payload_size packet))
  (packet.set chksum_ind ((chksum >>> 8) &&& 0xFF)).set (chksum_ind + 1)
    (chksum &&& 0xFF)

/-- `MmpsuV2Uart._check_crc`: compare the received checksum with one
recomputed over the received payload; `none` models the `IndexError`
propagating out of `get_checksum` when the checksum bytes are absent. -/
def check_crc (packet : List Nat) : Option Bool :=
  match get_checksum packet with
  | none => none
  | some rx_chk =>
    some (rx_chk == compute_crc ((packet.drop HDDR_SIZE).take (get_payload_size packet)))

/-- `MmpsuV2Uart._verify_packet`, as a function of the engine state.
Returns `some (verdict, state)`; `none` models an uncaught exception
(either the `IndexError` from `_check_crc` or the `KeyError` raised while
formatting the log message `MMPSU_ERR_CODES[rx_packet[HDDR_SIZE]]` for an
ERROR reply whose code byte is not in the table — note that lookup happens
before the counter increment). -/
def verify_packet (tx_packet rx_packet : List Nat) (s : EngineState) :
    Option (Bool × EngineState) :=
  if rx_packet.length < HDDR_SIZE + CRC_SIZE then
    some (false, s)
  else
    match check_crc rx_packet with
    | none => none
    | some false => some (false, ⟨s.rx_crc_err_count + 1, s.mmpsu_crc_err_count⟩)
    | some true =>
      if rx_packet.getD CMD_IND 0 ≠ tx_packet.getD CMD_IND 0 then
        if rx_packet.getD CMD_IND 0 = CMD_ERROR then
          match MMPSU_ERR_CODES (rx_packet.getD HDDR_SIZE 0) with
          | none => none
          | some _ =>
            if rx_packet.getD HDDR_SIZE 0 = ERR_CRC then
              some (false, ⟨s.rx_crc_err_count, s.mmpsu_crc_err_count + 1⟩)
            else
              some (false, s)
        else
          some (false, s)
      else
        some (true, s)

/-- Python dict assignment `d[k] = v`: replace in place when the key is
present, otherwise append (insertion order preserved). -/
def dictInsert (d : List (String × Value)) (k : String) (v : Value) :
    List (String × Value) :=
  if d.any (fun p => p.1 = k) then
    d.map (fun p => if p.1 = k then (k, v) else p)
  else
    d ++ [(k, v)]

/-- The loop body of `MmpsuV2Uart._parse_read_packet`
(`for i in range(0, payload_len, 5)`), with `steps` the number of remaining
iterations.  `none` models an uncaught exception: `IndexError` on
`payload[i]`, `KeyError` on `self._regmap_by_num[regnum]`, or
`struct.error` from `unpack_from`. -/
def parse_units (payload : List Nat) (i : Nat) (steps : Nat)
    (acc : List (String × Value)) : Option (List (String × Value)) :=
  match steps with
  | 0 => some acc
  | n + 1 =>
    match payload.get? i with
    | none => none
    | some regnum =>
      match regmap_by_num regnum with
      | none => none
      | some fd =>
        match fd.unpack_from payload (i + 1) with
        | none => none
        | some v => parse_units payload (i + 5) n (dictInsert acc fd.name v)

/-- `MmpsuV2Uart._parse_read_packet`: slice out the payload and decode the
5-byte register/value units in ascending order. -/
def parse_read_packet (packet : List Nat) : Option (List (String × Value)) :=
  let payload_len := get_payload_size packet
  let payload := (packet.drop HDDR_SIZE).take payload_len
  parse_units payload 0 ((payload_len + 4) / 5) []

/-- The packing loop of `MmpsuV2Uart.write_fields`
(`for field, data in field_values.items(): offset += self._regmap[field].pack_into(...)`).
`none` models a `KeyError` on the regmap lookup or the `struct.error`
raised by `pack_into`. -/
def pack_fields_loop (field_values : List (String × Value))
    (packet : List Nat) (offset : Nat) : Option (List Nat × Nat) :=
  match field_values with
  | [] => some (packet, offset)
  | (field, data) :: rest =>
    match regmap field with
    | none => none
    | some fd =>
      match fd.pack_into packet data offset with
      | none => none
      | some (pkt, sz) => pack_fields_loop rest pkt (offset + sz)

/-- `MmpsuV2Uart.write_fields`, with the reply bytes (`_read_packet`'s
result; `[]` on timeout) as an input.  Mirrors the source order: allocate a
zero bytearray, run the packing loop, apply the defensive offset check,
fill in start/command/length, append the checksum, apply `_send_packet`'s
malformed-packet check, then read and verify the reply. -/
def write_fields (field_values : List (String × Value)) (rpy : List Nat)
    (s : EngineState) : Option (Bool × EngineState) :=
  let payload_len := 5 * field_values.length
  let total_len := HDDR_SIZE + payload_len + CRC_SIZE
  match pack_fields_loop field_values (List.replicate total_len 0) HDDR_SIZE with
  | none => none
  | some (pkt, offset) =>
    if offset ≠ HDDR_SIZE + payload_len then
      some (false, s)
    else
      let pkt := (pkt.set 0 START_BYTE).set CMD_IND CMD_WRITE
      let pkt := add_crc (set_packet_size pkt payload_len)
      if get_packet_size pkt < pkt.length then
        some (false, s)
      else
        match verify_packet pkt rpy s with
        | none => none
        | some (false, s1) => some (false, s1)
        | some (true, s1) => some (true, s1)

/-- The finished WRITE packet of `MmpsuV2Uart.write_fields`: the packet
produced by the packing loop with the start byte, CMD_WRITE, the payload
length and the checksum filled in (the steps following the defensive
offset check in the source). -/
def write_packet_of (pkt : List Nat) (payload_len : Nat) : List Nat :=
  add_crc (set_packet_size ((pkt.set 0 START_BYTE).set CMD_IND CMD_WRITE)
    payload_len)

/-- The request packet built by `MmpsuV2Uart.read_fields` for the given
field names; `none` models a `KeyError` for an unknown field name. -/
def write_regs (fields : List String) (packet : List Nat) (ind : Nat) :
    Option (List Nat) :=
  match fields with
  | [] => some packet
  | f :: rest =>
    match regmap f with
    | none => none
    | some fd => write_regs rest (packet.set ind fd.reg) (ind + 1)

/-- The READ request packet construction inside `MmpsuV2Uart.read_fields`:
zero bytearray of `HDDR_SIZE + len(fields) + CRC_SIZE`, start byte,
CMD_READ, payload length, one register number per requested field
(`packet[ind] = self._regmap[regstr].reg`), then the checksum.  `none`
models a `KeyError` for an unknown field name. -/
def build_read_packet (fields : List String) : Option (List Nat) :=
  let payload_len := fields.length
  let total_len := HDDR_SIZE + payload_len + CRC_SIZE
  let pkt := List.replicate total_len 0
  let pkt := (pkt.set 0 START_BYTE).set CMD_IND CMD_READ
  let pkt := set_packet_size pkt payload_len
  match write_regs fields pkt HDDR_SIZE with
  | none => none
  | some pkt => some (add_crc pkt)

/-- `MmpsuV2Uart.read_fields`, with the reply bytes as an input.  Returns
the decoded name→value dictionary together with the engine state; `none`
models an uncaught exception. -/
def read_fields (fields : List String) (rpy : List Nat) (s : EngineState) :
    Option (List (String × Value) × EngineState) :=
  match build_read_packet fields with
  | none => none
  | some pkt =>
    if get_packet_size pkt < pkt.length then
      some ([], s)
    else
      match verify_packet pkt rpy s with
      | none => none
      | some (false, s1) => some ([], s1)
      | some (true, s1) =>
        match parse_read_packet rpy with
        | none => none
        | some d => some (d, s1)

/-- The zero-payload READ_ALL request packet built by
`MmpsuV2Uart.read_all_fields`. -/
def read_all_packet : List Nat :=
  let pkt := List.replicate (HDDR_SIZE + CRC_SIZE) 0
  let pkt := (pkt.set 0 START_BYTE).set CMD_IND CMD_READ_ALL
  add_crc (set_packet_size pkt 0)

/-- `MmpsuV2Uart.read_all_fields`, with the reply bytes as an input. -/
def read_all_fields (rpy : List Nat) (s : EngineState) :
    Option (List (String × Value) × EngineState) :=
  let pkt := read_all_packet
  if get_packet_size pkt < pkt.length then
    some ([], s)
  else
    match verify_packet pkt rpy s with
    | none => none
    | some (false, s1) => some ([], s1)
    | some (true, s1) =>
      match parse_read_packet rpy with
      | none => none
      | some d => some (d, s1)

/-- The TEST_COMMS request packet built by `MmpsuV2Uart.test_comms`:
4-byte payload `DE AD BE EF`. -/
def test_comms_packet : List Nat :=
  let payload_len := 4
  let total_len := HDDR_SIZE + payload_len + CRC_SIZE
  let pkt := List.replicate total_len 0
  let pkt := (pkt.set 0 START_BYTE).set CMD_IND CMD_TEST_COMMS
  let pkt := (((pkt.set HDDR_SIZE 0xDE).set (HDDR_SIZE + 1) 0xAD).set
    (HDDR_SIZE + 2) 0xBE).set (HDDR_SIZE + 3) 0xEF
  add_crc (set_packet_size pkt payload_len)

/-- `MmpsuV2Uart.test_comms`, with the reply bytes as an input: send the
fixed-pattern packet, verify the reply, then require a byte-exact payload
echo. -/
def test_comms (rpy : List Nat) (s : EngineState) : Option (Bool × EngineState) :=
  let pkt := test_comms_packet
  if get_packet_size pkt < pkt.length then
    some (false, s)
  else
    match verify_packet pkt rpy s with
    | none => none
    | some (false, s1) => some (false, s1)
    | some (true, s1) =>
      if (rpy.drop HDDR_SIZE).take (get_payload_size rpy)
          ≠ (pkt.drop HDDR_SIZE).take (get_payload_size pkt) then
        some (false, s1)
      else
        some (true, s1)

/-- The `rx_crc_err_count` property of `MmpsuV2Uart`: return the current
receive-CRC error counter and clear it. -/
def rx_crc_err_count_read (s : EngineState) : Nat × EngineState :=
  (s.rx_crc_err_count, ⟨0, s.mmpsu_crc_err_count⟩)

/-- The `mmpsu_crc_err_count` property of `MmpsuV2Uart`: return the current
device-reported-CRC error counter and clear it. -/
def mmpsu_crc_err_count_read (s : EngineState) : Nat × EngineState :=
  (s.mmpsu_crc_err_count, ⟨s.rx_crc_err_count, 0⟩)

/-! Theorems -/

/-- C1: the claimed pack/unpack round trip (pack writes the register byte
followed by the encoded value and returns 5 bytes written) fails at the
code: for every field descriptor, every destination buffer, every value
and every offset, `FieldData.pack_into` raises `struct.error` (modelled
`none`) because the register number — an `int` — is handed to struct's
`c` conversion, which requires a bytes object of length 1.  No bytes are
written and nothing is returned, so no round trip exists. -/
theorem pack_into_always_raises (fd : FieldData) (dst : List Nat) (v : Value)
    (off : Nat) : fd.pack_into dst v off = none := by
  rcases fd with ⟨n, r, t, v0, d, u, w⟩
  cases t <;> rfl

/-- C2: the claimed WRITE payload `[0x00, 0x01, 0x00, 0x00, 0x00]` is never
produced: `write_fields {"OUTPUT_ENABLED": True}` raises `struct.error`
(modelled `none`) inside the packing loop, for every reply and every
engine state, before any packet is sent. -/
theorem write_fields_output_enabled_raises (rpy : List Nat) (s : EngineState) :
    write_fields [("OUTPUT_ENABLED", Value.vBool true)] rpy s = none := rfl

/-- C3: `read_fields ["VOUT_SETPOINT"]` builds the READ packet
`A5 01 01 00 02 00 00` — payload exactly the register byte `0x02`, total
wire length 7 — and a validated reply carrying payload
`02 E0 2E 00 00` decodes to the mapping VOUT_SETPOINT ↦ 12000 with the
engine state untouched. -/
theorem read_fields_vout_setpoint_scenario :
    build_read_packet ["VOUT_SETPOINT"]
      = some [0xA5, 0x01, 0x01, 0x00, 0x02, 0x00, 0x00]
  ∧ (build_read_packet ["VOUT_SETPOINT"]).map List.length = some 7
  ∧ (build_read_packet ["VOUT_SETPOINT"]).map get_packet_size = some 7
  ∧ read_fields ["VOUT_SETPOINT"]
      [0xA5, 0x01, 0x05, 0x00, 0x02, 0xE0, 0x2E, 0x00, 0x00, 0x00, 0x00] ⟨0, 0⟩
      = some ([("VOUT_SETPOINT", Value.vInt 12000)], ⟨0, 0⟩) :=
  ⟨rfl, rfl, rfl, rfl⟩

/-- C4 counterexample: the failure value returned to the caller does not
discriminate the failure kind.  Four distinct failures of
`read_fields ["VOUT_SETPOINT"]` — timeout (empty reply), checksum mismatch,
device-reported ERR_CRC, and an unexpected packet type — all hand the
caller the identical empty mapping, and a timed-out `test_comms` hands the
caller the generic boolean `false`. -/
theorem failures_indistinguishable_counterexample :
    (read_fields ["VOUT_SETPOINT"] [] ⟨0, 0⟩).map Prod.fst = some []
  ∧ (read_fields ["VOUT_SETPOINT"] [0xA5, 0x01, 0x00, 0x00, 0x00, 0x01]
      ⟨0, 0⟩).map Prod.fst = some []
  ∧ (read_fields ["VOUT_SETPOINT"] [0xA5, 0x05, 0x01, 0x00, 0x01, 0x00, 0x00]
      ⟨0, 0⟩).map Prod.fst = some []
  ∧ (read_fields ["VOUT_SETPOINT"] [0xA5, 0x03, 0x00, 0x00, 0x00, 0x00]
      ⟨0, 0⟩).map Prod.fst = some []
  ∧ (test_comms [] ⟨0, 0⟩).map Prod.fst = some false :=
  ⟨rfl, rfl, rfl, rfl, rfl⟩

/-- C4 amended: every failing operation returns a generic value — an empty
mapping from `read_fields` and `read_all_fields`, a plain `false` from
`test_comms` and `write_fields` — whatever the failure kind; the failure
cause is recorded only in the two CRC counters and the log.  Each conjunct
handles one operation, under the hypotheses that its request packet was
built and sent (for `write_fields`, that the packing loop returned with
the consistent offset — by C1 this requires an empty field set — and that
the finished packet passed `_send_packet`'s length check) and that reply
validation rejected the reply. -/
theorem failing_operations_return_generic_values (fields : List String)
    (field_values : List (String × Value)) (rpkt pkt0 rpy : List Nat)
    (s s1 : EngineState) :
    (build_read_packet fields = some rpkt →
      ¬ get_packet_size rpkt < rpkt.length →
      verify_packet rpkt rpy s = some (false, s1) →
      read_fields fields rpy s = some ([], s1))
  ∧ (verify_packet read_all_packet rpy s = some (false, s1) →
      read_all_fields rpy s = some ([], s1))
  ∧ (verify_packet test_comms_packet rpy s = some (false, s1) →
      test_comms rpy s = some (false, s1))
  ∧ (pack_fields_loop field_values
        (List.replicate (HDDR_SIZE + 5 * field_values.length + CRC_SIZE) 0)
        HDDR_SIZE = some (pkt0, HDDR_SIZE + 5 * field_values.length) →
      ¬ get_packet_size (write_packet_of pkt0 (5 * field_values.length))
          < (write_packet_of pkt0 (5 * field_values.length)).length →
      verify_packet (write_packet_of pkt0 (5 * field_values.length)) rpy s
        = some (false, s1) →
      write_fields field_values rpy s = some (false, s1)) := by
  refine ⟨?_, ?_, ?_, ?_⟩
  · intro hb hsend hv
    simp only [read_fields, hb, if_neg hsend, hv]
  · intro hv
    unfold read_all_fields
    rw [if_neg (by decide), hv]
  · intro hv
    unfold test_comms
    rw [if_neg (by decide), hv]
  · intro hp hsend hv
    simp only [write_packet_of] at hsend hv
    simp only [write_fields, hp, ne_eq, not_true_eq_false, if_false,
      if_neg hsend, hv]

/-- C4 witness: instantiated at a timed-out transaction (empty reply) for
each of the four operations, with `write_fields` given the empty field
set (the only one its packing loop survives). -/
theorem failing_operations_return_generic_values_witness :
    read_fields ["VOUT_SETPOINT"] [] ⟨0, 0⟩ = some ([], ⟨0, 0⟩)
  ∧ read_all_fields [] ⟨0, 0⟩ = some ([], ⟨0, 0⟩)
  ∧ test_comms [] ⟨0, 0⟩ = some (false, ⟨0, 0⟩)
  ∧ write_fields [] [] ⟨0, 0⟩ = some (false, ⟨0, 0⟩) :=
  ⟨(failing_operations_return_generic_values ["VOUT_SETPOINT"] []
      [0xA5, 0x01, 0x01, 0x00, 0x02, 0x00, 0x00] (List.replicate 6 0) []
      ⟨0, 0⟩ ⟨0, 0⟩).1 (by decide) (by decide) (by decide),
   (failing_operations_return_generic_values ["VOUT_SETPOINT"] []
      [0xA5, 0x01, 0x01, 0x00, 0x02, 0x00, 0x00] (List.replicate 6 0) []
      ⟨0, 0⟩ ⟨0, 0⟩).2.1 (by decide),
   (failing_operations_return_generic_values ["VOUT_SETPOINT"] []
      [0xA5, 0x01, 0x01, 0x00, 0x02, 0x00, 0x00] (List.replicate 6 0) []
      ⟨0, 0⟩ ⟨0, 0⟩).2.2.1 (by decide),
   (failing_operations_return_generic_values ["VOUT_SETPOINT"] []
      [0xA5, 0x01, 0x01, 0x00, 0x02, 0x00, 0x00] (List.replicate 6 0) []
      ⟨0, 0⟩ ⟨0, 0⟩).2.2.2 (by decide) (by decide) (by decide)⟩

/-- C5: a received reply of at least 6 bytes that carries its checksum
bytes and whose checksum differs from the one recomputed over its payload
is rejected by `_verify_packet`, the receive-CRC counter increments by
exactly 1, and the device-reported-CRC counter is unchanged. -/
theorem checksum_mismatch_increments_rx_counter (tx rx : List Nat)
    (s : EngineState) (c : Nat)
    (hlen : ¬ rx.length < HDDR_SIZE + CRC_SIZE)
    (hchk : get_checksum rx = some c)
    (hne : c ≠ compute_crc ((rx.drop HDDR_SIZE).take (get_payload_size rx))) :
    verify_packet tx rx s
      = some (false, ⟨s.rx_crc_err_count + 1, s.mmpsu_crc_err_count⟩) := by
  have h1 : check_crc rx = some false := by
    unfold check_crc
    rw [hchk]
    simp [hne]
  unfold verify_packet
  rw [if_neg hlen, h1]

/-- C5 witness: a zero-payload reply whose stored checksum is 1 while the
recomputed checksum is 0, starting from zeroed counters. -/
theorem checksum_mismatch_increments_rx_counter_witness :
    verify_packet [] [0xA5, 0x01, 0x00, 0x00, 0x00, 0x01] ⟨0, 0⟩
      = some (false, ⟨1, 0⟩) :=
  checksum_mismatch_increments_rx_counter [] [0xA5, 0x01, 0x00, 0x00, 0x00, 0x01]
    ⟨0, 0⟩ 1 (by decide) (by decide) (by decide)

/-- C6: a reply that passes the checksum check, whose command byte is
CMD_ERROR and differs from the request's command byte, and whose error
code byte (the first payload byte) is ERR_CRC, fails validation with the
device-reported-CRC counter incremented by exactly 1 and the receive-CRC
counter unchanged. -/
theorem device_crc_error_increments_mmpsu_counter (tx rx : List Nat)
    (s : EngineState) (c : Nat)
    (hlen : ¬ rx.length < HDDR_SIZE + CRC_SIZE)
    (hchk : get_checksum rx = some c)
    (heq : c = compute_crc ((rx.drop HDDR_SIZE).take (get_payload_size rx)))
    (hcmd : rx.getD CMD_IND 0 ≠ tx.getD CMD_IND 0)
    (herr : rx.getD CMD_IND 0 = CMD_ERROR)
    (hcode : rx.getD HDDR_SIZE 0 = ERR_CRC) :
    verify_packet tx rx s
      = some (false, ⟨s.rx_crc_err_count, s.mmpsu_crc_err_count + 1⟩) := by
  have h1 : check_crc rx = some true := by
    unfold check_crc
    rw [hchk]
    simp [heq]
  unfold verify_packet
  rw [if_neg hlen, h1, if_pos hcmd, if_pos herr, hcode]
  rw [show MMPSU_ERR_CODES ERR_CRC = some "ERR_CRC" from rfl]
  rw [if_pos rfl]

/-- C6 witness: a READ request answered by an ERROR reply with code byte
ERR_CRC, starting from zeroed counters. -/
theorem device_crc_error_increments_mmpsu_counter_witness :
    verify_packet [0xA5, 0x01, 0x01, 0x00, 0x02, 0x00, 0x00]
      [0xA5, 0x05, 0x01, 0x00, 0x01, 0x00, 0x00] ⟨0, 0⟩
      = some (false, ⟨0, 1⟩) :=
  device_crc_error_increments_mmpsu_counter
    [0xA5, 0x01, 0x01, 0x00, 0x02, 0x00, 0x00]
    [0xA5, 0x05, 0x01, 0x00, 0x01, 0x00, 0x00] ⟨0, 0⟩ 0
    (by decide) (by decide) (by decide) (by decide) (by decide) (by decide)

/-- C7 counterexample: a reply that fails validation by command-code
mismatch can make `read_fields` raise instead of returning an empty
mapping: an ERROR-typed reply whose error-code byte (3) is not in
`MMPSU_ERR_CODES` triggers an uncaught `KeyError` (modelled `none`) while
the diagnostic message is formatted, so the operation does not return at
all. -/
theorem read_fields_unknown_error_code_raises :
    read_fields ["VOUT_SETPOINT"] [0xA5, 0x05, 0x01, 0x00, 0x03, 0x00, 0x00]
      ⟨0, 0⟩ = none := rfl

/-- C7 amended: whenever reply validation completes with a rejection —
which covers too-short replies, checksum mismatches, and command-code
mismatches except the ERROR reply with an unrecognized error-code byte
(which raises `KeyError` instead) — `read_fields` and `read_all_fields`
return an empty mapping, never a partially decoded one, and the engine
state is exactly the one produced by validation, which differs from the
initial state in the two error counters alone. -/
theorem read_ops_no_partial_decode (fields : List String) (pkt rpy : List Nat)
    (s s1 : EngineState) :
    (build_read_packet fields = some pkt →
      ¬ get_packet_size pkt < pkt.length →
      verify_packet pkt rpy s = some (false, s1) →
      read_fields fields rpy s = some ([], s1))
  ∧ (verify_packet read_all_packet rpy s = some (false, s1) →
      read_all_fields rpy s = some ([], s1)) := by
  constructor
  · intro hb hsend hv
    simp only [read_fields, hb, if_neg hsend, hv]
  · intro hv
    unfold read_all_fields
    rw [if_neg (by decide), hv]

/-- C7 witness: instantiated at a timed-out transaction (empty reply), in
which validation rejects the reply as too short and both counters are
untouched. -/
theorem read_ops_no_partial_decode_witness :
    read_fields ["VOUT_SETPOINT"] [] ⟨0, 0⟩ = some ([], ⟨0, 0⟩)
  ∧ read_all_fields [] ⟨0, 0⟩ = some ([], ⟨0, 0⟩) :=
  ⟨(read_ops_no_partial_decode ["VOUT_SETPOINT"]
      [0xA5, 0x01, 0x01, 0x00, 0x02, 0x00, 0x00] [] ⟨0, 0⟩ ⟨0, 0⟩).1
      (by decide) (by decide) (by decide),
   (read_ops_no_partial_decode [] [0xA5, 0x01, 0x01, 0x00, 0x02, 0x00, 0x00]
      [] ⟨0, 0⟩ ⟨0, 0⟩).2 (by decide)⟩

/-- C8: for every engine state, reading the receive-CRC counter returns its
current value, resets it to zero and leaves the device-reported-CRC
counter unchanged; reading the device-reported-CRC counter returns its
current value, resets it to zero and leaves the receive-CRC counter
unchanged. -/
theorem counters_read_and_clear (s : EngineState) :
    (rx_crc_err_count_read s).1 = s.rx_crc_err_count
  ∧ (rx_crc_err_count_read s).2.rx_crc_err_count = 0
  ∧ (rx_crc_err_count_read s).2.mmpsu_crc_err_count = s.mmpsu_crc_err_count
  ∧ (mmpsu_crc_err_count_read s).1 = s.mmpsu_crc_err_count
  ∧ (mmpsu_crc_err_count_read s).2.mmpsu_crc_err_count = 0
  ∧ (mmpsu_crc_err_count_read s).2.rx_crc_err_count = s.rx_crc_err_count :=
  ⟨rfl, rfl, rfl, rfl, rfl, rfl⟩

/-- C9: in the static catalog the field names are pairwise distinct and
the register numbers are pairwise distinct, and looking a descriptor up by
its name in the by-name table, or by its register number in the
by-register table, returns exactly that descriptor. -/
theorem catalog_tables_consistent :
    (MMPSU_V2_REGS.map FieldData.name).Nodup
  ∧ (MMPSU_V2_REGS.map FieldData.reg).Nodup
  ∧ (MMPSU_V2_REGS.all (fun fd =>
      regmap fd.name == some fd && regmap_by_num fd.reg == some fd)) = true :=
  ⟨by decide, by decide, by decide⟩

end Mmpsu
